import Mathlib

/-!
Verification of the DaBreeder match-request lifecycle and outcome rule engine,
a shallow embedding of `src/src/components/MatchOutcomeModal.jsx`
(the exported service functions `createMatchRequest`, `mapMatchRecord`,
`updateMatchStatus`, `acceptMatchRequest`, `submitMatchOutcome` and their
helpers `getActiveRequestForContact`, `lookupDogOwnerId`).

Modelling conventions:
- JavaScript numbers that flow through `Number(...)` / `Number.isFinite` are
  modelled by `JSNum` (NaN, plus/minus infinity, or a rational value).
- Nullable values are `Option`; the JS falsiness test `!s` on an id string is
  `String.isEmpty` (the only falsy string is the empty one).
- Each `throw new Error(...)` site is one constructor of `MatchError`; the
  constructor names follow the error kinds of the specification.
- `supabase` collaborators (auth, the dogs table, the match table, the
  outcome uniqueness constraint) are explicit environment parameters; the
  database update/insert is the returned patch or payload record.
-/

namespace DaBreeder

/-- A JavaScript number: NaN, an infinity, or a finite (rational) value. -/
inductive JSNum where
  | nan : JSNum
  | posInf : JSNum
  | negInf : JSNum
  | num : ℚ → JSNum
  deriving Repr, DecidableEq

/-- `Number.isFinite n` — true exactly on finite values. -/
def JSNum.isFinite : JSNum → Bool
  | .num _ => true
  | _ => false

/-- The JS comparison `n < 1` (false on NaN and +Infinity, true on -Infinity). -/
def JSNum.ltOne : JSNum → Bool
  | .nan => false
  | .posInf => false
  | .negInf => true
  | .num q => decide (q < 1)

/-- The finite value of a `JSNum`, 0 for NaN and the infinities (only read
after an `isFinite` guard, so the default is never observable). -/
def JSNum.val : JSNum → ℚ
  | .num q => q
  | _ => 0

/-- `Number(x)` applied to the `litterSize` argument: `Number(null) = 0`,
and a number is returned unchanged. -/
def jsToNumber : Option JSNum → JSNum
  | none => .num 0
  | some v => v

/-- `(s || "")` for a nullable string. -/
def orEmpty : Option String → String
  | none => ""
  | some s => s

/-- JavaScript `toLowerCase()` on the stored (ASCII) strings, written over
the character list so that it evaluates in the kernel. -/
def jsToLower (s : String) : String := String.mk (s.data.map Char.toLower)

/-- JavaScript `trim()`: strip leading and trailing whitespace, written over
the character list so that it evaluates in the kernel. -/
def jsTrim (s : String) : String :=
  String.mk
    (((s.data.dropWhile Char.isWhitespace).reverse.dropWhile
      Char.isWhitespace).reverse)

/-- `(s.trim() || null)`: the trimmed string, or null when it trims to empty. -/
def trimOrNull (s : String) : Option String :=
  if s.isEmpty then none else some s

/-- The projection of a match row selected by `getActiveRequestForContact`
(`select("id, status, requester_dog_id, requested_dog_id, requested_at")`). -/
structure ActiveRequestInfo where
  id : String
  status : String
  requester_dog_id : String
  requested_dog_id : String
  requested_at : Nat
  deriving Repr, DecidableEq

/-- One constructor per `throw` site of the source, named by the error kind
the specification assigns to that site. -/
inductive MatchError where
  /-- a missing/empty required argument (`contactId is required`,
  `matchId is required`, missing dog ids, identical dogs, ...) -/
  | invalidInput : MatchError
  /-- `MATCH_REQUEST_EXISTS`, carrying the existing active request -/
  | conflictError : ActiveRequestInfo → MatchError
  /-- `Unable to determine the other owner` -/
  | resolutionError : MatchError
  /-- `Unsupported match status` -/
  | unsupportedStatus : MatchError
  /-- `Invalid outcome` -/
  | invalidOutcome : MatchError
  /-- `Not authenticated` -/
  | unauthenticated : MatchError
  /-- `You can only submit outcomes for your own dog` -/
  | notOwner : MatchError
  /-- a `.single()` lookup found no row (`Dog not found` / `Match not found`) -/
  | notFound : MatchError
  /-- `Selected dog is not part of this match` -/
  | notParticipant : MatchError
  /-- the gender role gate (male dog owner restricted to no_show) -/
  | forbiddenOutcome : MatchError
  /-- `For success, litter size must be at least 1` -/
  | invalidLitterSize : MatchError
  /-- `Notes are required ...` -/
  | notesRequired : MatchError
  /-- an error raised by the storage layer (e.g. the uniqueness constraint on
  one outcome per match) surfaced verbatim -/
  | persistenceError : MatchError
  deriving Repr

end DaBreeder

namespace DaBreeder

/-- A row of the `dogs` table as selected by `submitMatchOutcome`
(`select("id, user_id, gender")`); `gender` is nullable. -/
structure Dog where
  id : String
  user_id : String
  gender : Option String
  deriving Repr, DecidableEq

/-- A row of `dog_match_requests` with the columns this module touches. -/
structure MatchRow where
  id : String
  status : String
  contact_id : String
  requester_user_id : String
  requested_user_id : String
  requester_dog_id : String
  requested_dog_id : String
  requested_at : Nat
  accepted_at : Option Nat := none
  declined_at : Option Nat := none
  cancelled_at : Option Nat := none
  awaiting_confirmation_at : Option Nat := none
  completed_at : Option Nat := none
  last_status_changed_at : Option Nat := none
  requester_notes : Option String := none
  responder_notes : Option String := none
  deriving Repr, DecidableEq

/-- `const ACTIVE_STATUS_LIST = ["pending", "accepted", "awaiting_confirmation"]` -/
def ACTIVE_STATUS_LIST : List String := ["pending", "accepted", "awaiting_confirmation"]

/-- `STATUS_SET`: the recognized match statuses. -/
def STATUS_SET : List String :=
  ["pending", "accepted", "declined", "cancelled", "awaiting_confirmation",
   "completed_success", "completed_failed"]

/-- The projection applied by the `select` of `getActiveRequestForContact`. -/
def MatchRow.toActiveInfo (r : MatchRow) : ActiveRequestInfo :=
  { id := r.id, status := r.status, requester_dog_id := r.requester_dog_id,
    requested_dog_id := r.requested_dog_id, requested_at := r.requested_at }

/-- `order("requested_at", descending).limit(1)` on a result set: one row of
maximal `requested_at` (ties are resolved by the storage engine; this model
keeps the earliest-listed maximum). -/
def pickLatest : List MatchRow → Option MatchRow
  | [] => none
  | r :: rs =>
    match pickLatest rs with
    | none => some r
    | some b => if r.requested_at < b.requested_at then some b else some r

/-- `getActiveRequestForContact(contactId)`: the most recent row of the
context whose status is active, projected to `ActiveRequestInfo`. -/
def getActiveRequestForContact (db : List MatchRow) (contactId : String) :
    Option ActiveRequestInfo :=
  if contactId.isEmpty then none
  else
    (pickLatest (db.filter fun r =>
      r.contact_id == contactId && ACTIVE_STATUS_LIST.contains r.status)).map
      MatchRow.toActiveInfo

end DaBreeder

namespace DaBreeder

/-- The insert payload built by `createMatchRequest` (the columns it sets). -/
structure CreatePayload where
  contact_id : String
  requester_dog_id : String
  requested_dog_id : String
  requester_user_id : String
  requested_user_id : String
  requester_notes : Option String
  deriving Repr, DecidableEq

/-- Modelled from the spec: the match-storage `insert` collaborator is not
part of this repository; per §4.1 the persisted request starts in `pending`
status with `requestedAt` set to the current time, the storage engine
assigning the fresh id and leaving every other timestamp null. -/
def insertMatchRow (p : CreatePayload) (newId : String) (now : Nat) : MatchRow :=
  { id := newId, status := "pending", contact_id := p.contact_id,
    requester_user_id := p.requester_user_id,
    requested_user_id := p.requested_user_id,
    requester_dog_id := p.requester_dog_id,
    requested_dog_id := p.requested_dog_id,
    requested_at := now,
    requester_notes := p.requester_notes }

/-- The tail of `createMatchRequest` after the active-request check: resolve
the target user (falling back to `lookupDogOwnerId`), build the payload,
insert. -/
def createMatchRequestResolve (dogOwner : String → Option String)
    (contactId requesterDogId requestedDogId requesterUserId : String)
    (requestedUserId : Option String) (notes : Option String)
    (newId : String) (now : Nat) : Except MatchError MatchRow :=
  let targetUserId :=
    if (orEmpty requestedUserId).isEmpty then dogOwner requestedDogId
    else requestedUserId
  if (orEmpty targetUserId).isEmpty then .error .resolutionError
  else
    .ok (insertMatchRow
      { contact_id := contactId, requester_dog_id := requesterDogId,
        requested_dog_id := requestedDogId,
        requester_user_id := requesterUserId,
        requested_user_id := orEmpty targetUserId,
        requester_notes := notes }
      newId now)

/-- `createMatchRequest({contactId, requesterDogId, requestedDogId,
requesterUserId, requestedUserId, notes})` over a database `db` and the
`lookupDogOwnerId` collaborator `dogOwner` (already returning
`data?.user_id || null` as an `Option`). `newId`/`now` stand for the storage
engine's fresh id and clock. -/
def createMatchRequest (db : List MatchRow) (dogOwner : String → Option String)
    (contactId requesterDogId requestedDogId requesterUserId : String)
    (requestedUserId : Option String) (notes : Option String)
    (newId : String) (now : Nat) : Except MatchError MatchRow :=
  if contactId.isEmpty then .error .invalidInput
  else if requesterDogId.isEmpty || requestedDogId.isEmpty then .error .invalidInput
  else if requesterUserId.isEmpty then .error .invalidInput
  else if requesterDogId == requestedDogId then .error .invalidInput
  else
    match getActiveRequestForContact db contactId with
    | some active =>
      if ACTIVE_STATUS_LIST.contains active.status then .error (.conflictError active)
      else createMatchRequestResolve dogOwner contactId requesterDogId
        requestedDogId requesterUserId requestedUserId notes newId now
    | none => createMatchRequestResolve dogOwner contactId requesterDogId
        requestedDogId requesterUserId requestedUserId notes newId now

/-- A dog record embedded in a fetched match row (`requester_dog` /
`requested_dog` relations); only the fields `mapMatchRecord` reads. -/
structure FetchedDog where
  id : String
  gender : Option String
  deriving Repr, DecidableEq

/-- An outcome row embedded in a fetched match row
(`dog_match_outcomes(...)`). -/
structure OutcomeRow where
  id : String
  outcome : String
  litter_size : ℚ
  notes : Option String
  deriving Repr, DecidableEq

/-- A row as returned by `MATCH_SELECT`: the match columns plus the embedded
dog records and outcome rows. -/
structure FetchedMatch where
  row : MatchRow
  requester_dog : Option FetchedDog
  requested_dog : Option FetchedDog
  dog_match_outcomes : List OutcomeRow
  deriving Repr, DecidableEq

/-- The record returned by `mapMatchRecord`: the spread row plus the derived
view fields. -/
structure MatchViewModel where
  row : MatchRow
  myDog : Option FetchedDog
  partnerDog : Option FetchedDog
  iAmRequester : Bool
  awaitingMyOutcome : Bool
  isMaleDogOwner : Bool
  requiresResponse : Bool
  canCancel : Bool
  outcome : Option OutcomeRow
  userStatus : String
  direction : String
  isCompleted : Bool
  isHistory : Bool
  deriving Repr, DecidableEq

/-- `mapMatchRecord(row, userId)`: the pure view-model projection. A null row
maps to null; `userId` empty (falsy) means the viewer is not the requester. -/
def mapMatchRecord (fetched : Option FetchedMatch) (userId : String) :
    Option MatchViewModel :=
  match fetched with
  | none => none
  | some f =>
    let row := f.row
    let myselfIsRequester := !userId.isEmpty && row.requester_user_id == userId
    let myDog := if myselfIsRequester then f.requester_dog else f.requested_dog
    let partnerDog := if myselfIsRequester then f.requested_dog else f.requester_dog
    let myDogGender := jsToLower (orEmpty (myDog.bind FetchedDog.gender))
    let awaitingMyOutcome :=
      row.status == "awaiting_confirmation" &&
        (myDogGender == "female" || myDogGender == "male")
    let isMaleDogOwner := myDogGender == "male"
    let isCompleted :=
      row.status == "completed_success" || row.status == "completed_failed"
    let isHistory :=
      isCompleted || row.status == "declined" || row.status == "cancelled"
    let requiresResponse := row.status == "pending" && !myselfIsRequester
    let canCancel :=
      myselfIsRequester &&
        (row.status == "pending" || row.status == "accepted" ||
          row.status == "awaiting_confirmation")
    some
      { row := row, myDog := myDog, partnerDog := partnerDog,
        iAmRequester := myselfIsRequester,
        awaitingMyOutcome := awaitingMyOutcome,
        isMaleDogOwner := isMaleDogOwner,
        requiresResponse := requiresResponse, canCancel := canCancel,
        outcome := f.dog_match_outcomes.head?, userStatus := row.status,
        direction := if myselfIsRequester then "sent" else "received",
        isCompleted := isCompleted, isHistory := isHistory }

/-- The `patch` object built by `updateMatchStatus`: the new status plus any
stamped timestamp columns. -/
structure StatusPatch where
  status : String
  accepted_at : Option Nat := none
  declined_at : Option Nat := none
  cancelled_at : Option Nat := none
  awaiting_confirmation_at : Option Nat := none
  completed_at : Option Nat := none
  deriving Repr, DecidableEq

/-- The `timestampFields` map of `updateMatchStatus`, as the patch update it
induces. -/
def stampTimestampField (status : String) (now : Nat) (p : StatusPatch) :
    StatusPatch :=
  if status == "accepted" then { p with accepted_at := some now }
  else if status == "declined" then { p with declined_at := some now }
  else if status == "cancelled" then { p with cancelled_at := some now }
  else if status == "awaiting_confirmation" then
    { p with awaiting_confirmation_at := some now }
  else p

/-- `updateMatchStatus(matchId, status)`: validate the status, build the
patch (`now` standing for `new Date().toISOString()`). The database `update`
itself is the returned patch. -/
def updateMatchStatus (matchId status : String) (now : Nat) :
    Except MatchError StatusPatch :=
  if matchId.isEmpty then .error .invalidInput
  else if !STATUS_SET.contains status then .error .unsupportedStatus
  else
    let patch := stampTimestampField status now { status := status }
    if status == "completed_success" || status == "completed_failed" then
      .ok { patch with completed_at := some now }
    else .ok patch

/-- The patch applied by `acceptMatchRequest` to the row it matched. -/
def applyAcceptPatch (r : MatchRow) (now : Nat) : MatchRow :=
  { r with
    status := "awaiting_confirmation", accepted_at := some now,
    awaiting_confirmation_at := some now, last_status_changed_at := some now }

/-- `acceptMatchRequest(matchId)`: patch the row with the given id to
`awaiting_confirmation`, stamping `accepted_at`, `awaiting_confirmation_at`
and `last_status_changed_at` to the same instant; `.single()` raises when no
row matched. -/
def acceptMatchRequest (db : List MatchRow) (matchId : String) (now : Nat) :
    Except MatchError MatchRow :=
  if matchId.isEmpty then .error .invalidInput
  else
    match db.find? (fun r => r.id == matchId) with
    | none => .error .persistenceError
    | some r => .ok (applyAcceptPatch r now)

end DaBreeder

namespace DaBreeder

/-- The row inserted into `dog_match_outcomes` by `submitMatchOutcome`. -/
structure OutcomePayload where
  match_id : String
  verified_by_user_id : String
  verified_by_dog_id : String
  outcome : String
  litter_size : ℚ
  notes : Option String
  deriving Repr, DecidableEq

/-- The collaborators `submitMatchOutcome` consults: the authenticated user,
the `dogs` table, the `dog_match_requests` table (projected to the selected
columns of `MatchRow`), and the uniqueness constraint on one outcome per
match (`hasOutcome`). -/
structure SubmitEnv where
  currentUser : Option String
  getDog : String → Option Dog
  getMatch : String → Option MatchRow
  hasOutcome : String → Bool

/-- `submitMatchOutcome({matchId, outcome, verifiedDogId, litterSize,
notes})`: the validation chain, role gate, normalization and insert, in
source order. -/
def submitMatchOutcome (env : SubmitEnv) (matchId outcome verifiedDogId : String)
    (litterSize : Option JSNum := none) (notes : Option String := none) :
    Except MatchError OutcomePayload :=
  if matchId.isEmpty then .error .invalidInput
  else if verifiedDogId.isEmpty then .error .invalidInput
  else if !(["success", "failed", "no_show"].contains outcome) then
    .error .invalidOutcome
  else
    match env.currentUser with
    | none => .error .unauthenticated
    | some userId =>
      match env.getDog verifiedDogId with
      | none => .error .notFound
      | some dog =>
        if dog.user_id != userId then .error .notOwner
        else
          match env.getMatch matchId with
          | none => .error .notFound
          | some m =>
            if m.requester_dog_id != verifiedDogId &&
                m.requested_dog_id != verifiedDogId then
              .error .notParticipant
            else
              let dogGender := jsToLower (orEmpty dog.gender)
              if dogGender == "male" && outcome != "no_show" then
                .error .forbiddenOutcome
              else
                let trimmedNotes := jsTrim (orEmpty notes)
                let step :=
                  if outcome == "success" then
                    let n := jsToNumber litterSize
                    if !n.isFinite || n.ltOne then
                      Except.error MatchError.invalidLitterSize
                    else if trimmedNotes.isEmpty then
                      Except.error MatchError.notesRequired
                    else Except.ok n.val
                  else if outcome == "failed" then Except.ok 0
                  else
                    if trimmedNotes.isEmpty then
                      Except.error MatchError.notesRequired
                    else Except.ok 0
                match step with
                | .error e => .error e
                | .ok finalLitterSize =>
                  if env.hasOutcome matchId then .error .persistenceError
                  else
                    .ok { match_id := matchId, verified_by_user_id := userId,
                          verified_by_dog_id := verifiedDogId,
                          outcome := outcome,
                          litter_size := finalLitterSize,
                          notes := trimOrNull trimmedNotes }

/-! ### Helper lemmas shared by the claim theorems -/

theorem pickLatest_mem : ∀ {l : List MatchRow} {b : MatchRow},
    pickLatest l = some b → b ∈ l := by
  intro l
  induction l with
  | nil => intro b h; simp [pickLatest] at h
  | cons r rs ih =>
    intro b h
    cases hr : pickLatest rs with
    | none =>
      simp only [pickLatest, hr] at h
      injection h with h
      exact h ▸ List.mem_cons_self r rs
    | some c =>
      simp only [pickLatest, hr] at h
      by_cases hlt : r.requested_at < c.requested_at
      · rw [if_pos hlt] at h
        injection h with h
        exact h ▸ List.mem_cons_of_mem r (ih hr)
      · rw [if_neg hlt] at h
        injection h with h
        exact h ▸ List.mem_cons_self r rs

theorem pickLatest_isSome {l : List MatchRow} (h : l ≠ []) :
    (pickLatest l).isSome = true := by
  cases l with
  | nil => exact absurd rfl h
  | cons r rs =>
    cases hr : pickLatest rs with
    | none => simp only [pickLatest, hr, Option.isSome_some]
    | some c =>
      simp only [pickLatest, hr]
      by_cases hlt : r.requested_at < c.requested_at
      · rw [if_pos hlt]; rfl
      · rw [if_neg hlt]; rfl

/-- Under checks 1–5 of `submitMatchOutcome` (present ids, valid outcome,
authenticated caller, owned dog, existing match with a participating dog),
the call reduces to the role gate followed by outcome normalization and the
guarded insert. -/
theorem submitMatchOutcome_post_checks
    (env : SubmitEnv) (matchId outcome verifiedDogId userId : String)
    (litterSize : Option JSNum) (notes : Option String)
    (dog : Dog) (m : MatchRow)
    (hmid : matchId.isEmpty = false) (hvid : verifiedDogId.isEmpty = false)
    (ho : outcome = "success" ∨ outcome = "failed" ∨ outcome = "no_show")
    (hu : env.currentUser = some userId)
    (hd : env.getDog verifiedDogId = some dog)
    (hown : dog.user_id = userId)
    (hmm : env.getMatch matchId = some m)
    (hpart : m.requester_dog_id = verifiedDogId ∨
      m.requested_dog_id = verifiedDogId) :
    submitMatchOutcome env matchId outcome verifiedDogId litterSize notes =
      (if jsToLower (orEmpty dog.gender) == "male" && outcome != "no_show" then
        Except.error MatchError.forbiddenOutcome
      else
        let trimmedNotes := jsTrim (orEmpty notes)
        let step : Except MatchError ℚ :=
          if outcome == "success" then
            let n := jsToNumber litterSize
            if !n.isFinite || n.ltOne then
              Except.error MatchError.invalidLitterSize
            else if trimmedNotes.isEmpty then
              Except.error MatchError.notesRequired
            else Except.ok n.val
          else if outcome == "failed" then Except.ok 0
          else
            if trimmedNotes.isEmpty then
              Except.error MatchError.notesRequired
            else Except.ok 0
        match step with
        | .error e => .error e
        | .ok finalLitterSize =>
          if env.hasOutcome matchId then .error .persistenceError
          else
            .ok { match_id := matchId, verified_by_user_id := userId,
                  verified_by_dog_id := verifiedDogId, outcome := outcome,
                  litter_size := finalLitterSize,
                  notes := trimOrNull (jsTrim (orEmpty notes)) }) := by
  rcases ho with h | h | h <;> subst h <;> rcases hpart with hp | hp <;>
    simp [submitMatchOutcome, hmid, hvid, hu, hd, hmm, hown, hp]

theorem JSNum.one_le_val_of_not_ltOne (n : JSNum) (hf : n.isFinite = true)
    (hl : n.ltOne = false) : 1 ≤ n.val := by
  cases n <;> simp_all [JSNum.isFinite, JSNum.ltOne, JSNum.val]

theorem JSNum.not_bad_of (n : JSNum) (hf : n.isFinite = true)
    (h1 : 1 ≤ n.val) : (!n.isFinite || n.ltOne) = false := by
  cases n <;> simp_all [JSNum.isFinite, JSNum.ltOne, JSNum.val, not_lt]

end DaBreeder

namespace DaBreeder

/-! ### Claim theorems for the outcome rule engine -/

/-- C1: Role gate of `submitMatchOutcome`. For a call that has passed
checks 1–5 (present ids, valid outcome claim, authenticated caller owning
the verifying dog, which participates in the match): when the verifying
dog's gender is male the call fails with `ForbiddenOutcome` for `success`
and `failed` and can only succeed when the claimed outcome is `no_show`;
when the gender is female the role gate never rejects the call. -/
theorem submitMatchOutcome_role_gate
    (env : SubmitEnv) (matchId outcome verifiedDogId userId : String)
    (litterSize : Option JSNum) (notes : Option String)
    (dog : Dog) (m : MatchRow)
    (hmid : matchId.isEmpty = false) (hvid : verifiedDogId.isEmpty = false)
    (ho : outcome = "success" ∨ outcome = "failed" ∨ outcome = "no_show")
    (hu : env.currentUser = some userId)
    (hd : env.getDog verifiedDogId = some dog)
    (hown : dog.user_id = userId)
    (hmm : env.getMatch matchId = some m)
    (hpart : m.requester_dog_id = verifiedDogId ∨
      m.requested_dog_id = verifiedDogId) :
    (jsToLower (orEmpty dog.gender) = "male" →
      ((outcome = "success" ∨ outcome = "failed") →
        submitMatchOutcome env matchId outcome verifiedDogId litterSize notes =
          .error .forbiddenOutcome)
      ∧ (∀ pay,
          submitMatchOutcome env matchId outcome verifiedDogId litterSize notes =
            .ok pay → outcome = "no_show"))
    ∧ (jsToLower (orEmpty dog.gender) = "female" →
        submitMatchOutcome env matchId outcome verifiedDogId litterSize notes ≠
          .error .forbiddenOutcome) := by
  have key := submitMatchOutcome_post_checks env matchId outcome verifiedDogId
    userId litterSize notes dog m hmid hvid ho hu hd hown hmm hpart
  refine ⟨fun hmale => ⟨?_, ?_⟩, fun hfem => ?_⟩
  · rintro (h | h) <;> subst h <;> rw [key] <;> simp [hmale]
  · intro pay hok
    by_contra hne
    rw [key] at hok
    simp [hmale, hne] at hok
  · rw [key]
    rcases ho with h | h | h <;> subst h <;>
      by_cases hfin : (jsToNumber litterSize).isFinite <;>
      by_cases hlt : (jsToNumber litterSize).ltOne <;>
      by_cases hn : (jsTrim (orEmpty notes)).isEmpty <;>
      by_cases hout : env.hasOutcome matchId <;>
      simp [hfem, hfin, hlt, hn, hout]

/-- C10: the role gate of `submitMatchOutcome` depends only on whether the
verifying dog's gender, lowercased, equals the exact string `male`: under
checks 1–5 the call fails with `ForbiddenOutcome` precisely when the
lowercased gender is `male` and the claimed outcome is not `no_show` — so
any letter-case variant of `male` is restricted to `no_show`, while a
female, empty, missing or other gender never trips the gate. -/
theorem submitMatchOutcome_gate_lowercase_male_iff
    (env : SubmitEnv) (matchId outcome verifiedDogId userId : String)
    (litterSize : Option JSNum) (notes : Option String)
    (dog : Dog) (m : MatchRow)
    (hmid : matchId.isEmpty = false) (hvid : verifiedDogId.isEmpty = false)
    (ho : outcome = "success" ∨ outcome = "failed" ∨ outcome = "no_show")
    (hu : env.currentUser = some userId)
    (hd : env.getDog verifiedDogId = some dog)
    (hown : dog.user_id = userId)
    (hmm : env.getMatch matchId = some m)
    (hpart : m.requester_dog_id = verifiedDogId ∨
      m.requested_dog_id = verifiedDogId) :
    submitMatchOutcome env matchId outcome verifiedDogId litterSize notes =
        .error .forbiddenOutcome ↔
      (jsToLower (orEmpty dog.gender) = "male" ∧ ¬outcome = "no_show") := by
  have key := submitMatchOutcome_post_checks env matchId outcome verifiedDogId
    userId litterSize notes dog m hmid hvid ho hu hd hown hmm hpart
  constructor
  · intro hcon
    by_cases hg : jsToLower (orEmpty dog.gender) = "male"
    · by_cases hns : outcome = "no_show"
      · exfalso
        subst hns
        rw [key] at hcon
        by_cases hn : (jsTrim (orEmpty notes)).isEmpty <;>
          by_cases hout : env.hasOutcome matchId <;>
          simp [hg, hn, hout] at hcon
      · exact ⟨hg, hns⟩
    · exfalso
      rw [key] at hcon
      rcases ho with h | h | h <;> subst h <;>
        by_cases hfin : (jsToNumber litterSize).isFinite <;>
        by_cases hlt : (jsToNumber litterSize).ltOne <;>
        by_cases hn : (jsTrim (orEmpty notes)).isEmpty <;>
        by_cases hout : env.hasOutcome matchId <;>
        simp [hg, hfin, hlt, hn, hout] at hcon
  · rintro ⟨h1, h2⟩
    rw [key]
    simp [h1, h2]

/-- C2: litter-size normalization of `submitMatchOutcome`, under
checks 1–5. Any accepted submission stores the parsed input (which is then
at least 1) when the outcome is `success`, and stores 0 for `failed` and
`no_show` regardless of the litter-size input; a `success` submission whose
litter-size input does not parse as a finite number ≥ 1 fails with
`InvalidLitterSize`. -/
theorem submitMatchOutcome_litter_normalization
    (env : SubmitEnv) (matchId outcome verifiedDogId userId : String)
    (litterSize : Option JSNum) (notes : Option String)
    (dog : Dog) (m : MatchRow)
    (hmid : matchId.isEmpty = false) (hvid : verifiedDogId.isEmpty = false)
    (ho : outcome = "success" ∨ outcome = "failed" ∨ outcome = "no_show")
    (hu : env.currentUser = some userId)
    (hd : env.getDog verifiedDogId = some dog)
    (hown : dog.user_id = userId)
    (hmm : env.getMatch matchId = some m)
    (hpart : m.requester_dog_id = verifiedDogId ∨
      m.requested_dog_id = verifiedDogId) :
    (∀ pay,
      submitMatchOutcome env matchId outcome verifiedDogId litterSize notes =
        .ok pay →
      (outcome = "success" →
        pay.litter_size = (jsToNumber litterSize).val ∧ 1 ≤ pay.litter_size)
      ∧ ((outcome = "failed" ∨ outcome = "no_show") → pay.litter_size = 0))
    ∧ (jsToLower (orEmpty dog.gender) ≠ "male" → outcome = "success" →
        ¬((jsToNumber litterSize).isFinite = true ∧
          1 ≤ (jsToNumber litterSize).val) →
        submitMatchOutcome env matchId outcome verifiedDogId litterSize notes =
          .error .invalidLitterSize) := by
  have key := submitMatchOutcome_post_checks env matchId outcome verifiedDogId
    userId litterSize notes dog m hmid hvid ho hu hd hown hmm hpart
  constructor
  · intro pay hok
    rw [key] at hok
    rcases ho with h | h | h <;> subst h
    · by_cases hg : jsToLower (orEmpty dog.gender) = "male" <;>
        by_cases hfin : (jsToNumber litterSize).isFinite <;>
        by_cases hlt : (jsToNumber litterSize).ltOne <;>
        by_cases hn : (jsTrim (orEmpty notes)).isEmpty <;>
        by_cases hout : env.hasOutcome matchId <;>
        simp [hg, hfin, hlt, hn, hout] at hok <;>
        subst hok <;>
        exact ⟨fun _ => ⟨rfl,
            JSNum.one_le_val_of_not_ltOne _ hfin (by simpa using hlt)⟩,
          fun hcase => by simp at hcase⟩
    · by_cases hg : jsToLower (orEmpty dog.gender) = "male" <;>
        by_cases hout : env.hasOutcome matchId <;>
        simp [hg, hout] at hok <;>
        subst hok <;>
        exact ⟨fun hs => by simp at hs, fun _ => rfl⟩
    · by_cases hn : (jsTrim (orEmpty notes)).isEmpty <;>
        by_cases hout : env.hasOutcome matchId <;>
        simp [hn, hout] at hok <;>
        subst hok <;>
        exact ⟨fun hs => by simp at hs, fun _ => rfl⟩
  · intro hg hs hbad
    subst hs
    rw [key]
    have hb : (!(jsToNumber litterSize).isFinite ||
        (jsToNumber litterSize).ltOne) = true := by
      cases hjs : jsToNumber litterSize <;>
        simp_all [JSNum.isFinite, JSNum.ltOne, JSNum.val, not_le]
    simp [hg, hb]

/-- C5: notes rules of `submitMatchOutcome`, under checks 1–5 and, where
the rule is reached, the earlier checks of its branch. A `no_show`
submission with empty or whitespace-only notes fails with `NotesRequired`;
so does a `success` submission (once its litter size is valid and the gate
passed); a `failed` submission succeeds with empty notes, storing the notes
trimmed, or null when they trim to empty. -/
theorem submitMatchOutcome_notes_rules
    (env : SubmitEnv) (matchId outcome verifiedDogId userId : String)
    (litterSize : Option JSNum) (notes : Option String)
    (dog : Dog) (m : MatchRow)
    (hmid : matchId.isEmpty = false) (hvid : verifiedDogId.isEmpty = false)
    (ho : outcome = "success" ∨ outcome = "failed" ∨ outcome = "no_show")
    (hu : env.currentUser = some userId)
    (hd : env.getDog verifiedDogId = some dog)
    (hown : dog.user_id = userId)
    (hmm : env.getMatch matchId = some m)
    (hpart : m.requester_dog_id = verifiedDogId ∨
      m.requested_dog_id = verifiedDogId) :
    (outcome = "no_show" → (jsTrim (orEmpty notes)).isEmpty = true →
      submitMatchOutcome env matchId outcome verifiedDogId litterSize notes =
        .error .notesRequired)
    ∧ (outcome = "success" → jsToLower (orEmpty dog.gender) ≠ "male" →
        (jsToNumber litterSize).isFinite = true →
        1 ≤ (jsToNumber litterSize).val →
        (jsTrim (orEmpty notes)).isEmpty = true →
        submitMatchOutcome env matchId outcome verifiedDogId litterSize notes =
          .error .notesRequired)
    ∧ (outcome = "failed" → jsToLower (orEmpty dog.gender) ≠ "male" →
        env.hasOutcome matchId = false →
        submitMatchOutcome env matchId outcome verifiedDogId litterSize notes =
          .ok { match_id := matchId, verified_by_user_id := userId,
                verified_by_dog_id := verifiedDogId, outcome := outcome,
                litter_size := 0,
                notes := trimOrNull (jsTrim (orEmpty notes)) }) := by
  have key := submitMatchOutcome_post_checks env matchId outcome verifiedDogId
    userId litterSize notes dog m hmid hvid ho hu hd hown hmm hpart
  refine ⟨fun hns hn => ?_, fun hs hg hfin h1 hn => ?_, fun hf hg hout => ?_⟩
  · subst hns
    rw [key]
    simp [hn]
  · subst hs
    rw [key]
    simp [hg, JSNum.not_bad_of _ hfin h1, hn]
  · subst hf
    rw [key]
    simp [hg, hout]

/-! ### Concrete fixtures -/

/-- A female dog fixture, with a capitalised stored gender. -/
def dogFemale : Dog := { id := "d2", user_id := "u2", gender := some "Female" }

/-- A male dog fixture, with an upper-case stored gender. -/
def dogMale : Dog := { id := "d1", user_id := "u1", gender := some "MALE" }

/-- An awaiting-confirmation match between the two fixture dogs. -/
def rowM1 : MatchRow :=
  { id := "m1", status := "awaiting_confirmation", contact_id := "c1",
    requester_user_id := "u1", requested_user_id := "u2",
    requester_dog_id := "d1", requested_dog_id := "d2", requested_at := 10 }

/-- Submission environment in which the female dog's owner is signed in. -/
def envFemale : SubmitEnv :=
  { currentUser := some "u2",
    getDog := fun i =>
      if i == "d2" then some dogFemale
      else if i == "d1" then some dogMale else none,
    getMatch := fun i => if i == "m1" then some rowM1 else none,
    hasOutcome := fun _ => false }

/-- Submission environment in which the male dog's owner is signed in. -/
def envMale : SubmitEnv := { envFemale with currentUser := some "u1" }

/-- Witness for C1: the male-side owner (stored gender `MALE`) claiming
`success` is rejected with `ForbiddenOutcome`. -/
theorem submitMatchOutcome_role_gate_witness :
    submitMatchOutcome envMale "m1" "success" "d1" (some (.num 4)) (some "x") =
      .error .forbiddenOutcome :=
  ((submitMatchOutcome_role_gate envMale "m1" "success" "d1" "u1"
      (some (.num 4)) (some "x") dogMale rowM1 rfl rfl (Or.inl rfl) rfl rfl rfl
      rfl (Or.inl rfl)).1 (by decide)).1 (Or.inl rfl)

/-- Witness for C10: the female-side owner (stored gender `Female`) claiming
`success` is not hit by the role gate. -/
theorem submitMatchOutcome_gate_lowercase_male_iff_witness :
    ¬(submitMatchOutcome envFemale "m1" "success" "d2" (some (.num 4))
        (some "nice") = .error .forbiddenOutcome) := by
  intro hc
  exact absurd ((submitMatchOutcome_gate_lowercase_male_iff envFemale "m1"
    "success" "d2" "u2" (some (.num 4)) (some "nice") dogFemale rowM1 rfl rfl
    (Or.inl rfl) rfl rfl rfl rfl (Or.inr rfl)).mp hc).1 (by decide)

/-- Witness for C2: a `success` submission whose litter-size input is NaN
fails with `InvalidLitterSize`. -/
theorem submitMatchOutcome_litter_normalization_witness :
    submitMatchOutcome envFemale "m1" "success" "d2" (some .nan) (some "x") =
      .error .invalidLitterSize :=
  (submitMatchOutcome_litter_normalization envFemale "m1" "success" "d2" "u2"
    (some .nan) (some "x") dogFemale rowM1 rfl rfl (Or.inl rfl) rfl rfl rfl
    rfl (Or.inr rfl)).2 (by decide) rfl (by decide)

/-- Witness for C5: a `failed` submission with null notes succeeds and
stores null notes. -/
theorem submitMatchOutcome_notes_rules_witness :
    submitMatchOutcome envFemale "m1" "failed" "d2" none none =
      .ok { match_id := "m1", verified_by_user_id := "u2",
            verified_by_dog_id := "d2", outcome := "failed",
            litter_size := 0, notes := none } :=
  (submitMatchOutcome_notes_rules envFemale "m1" "failed" "d2" "u2"
    none none dogFemale rowM1 rfl rfl (Or.inr (Or.inl rfl)) rfl rfl rfl
    rfl (Or.inr rfl)).2.2 rfl (by decide) rfl

/-- The JavaScript number 2.5, as the raw rational fraction 5/2. -/
def q52 : ℚ := ⟨5, 2, by decide, by decide⟩

/-- C7 counterexample: the claim that every stored `litterSize` is an
integer is false — a `success` submission with litter-size input 2.5 is
accepted and stores the fractional value 5/2. -/
theorem submitMatchOutcome_fractional_litter_cex :
    (submitMatchOutcome envFemale "m1" "success" "d2" (some (.num q52))
        (some "ok")).toOption.map OutcomePayload.litter_size = some q52
    ∧ ∀ k : ℤ, q52 ≠ (k : ℚ) := by
  refine ⟨by decide, fun k hk => ?_⟩
  have hden : q52.den = 1 := by rw [hk]; exact Rat.den_intCast k
  exact absurd hden (by decide)

/-- C7 (amended): every outcome record created by an accepted submission
(under checks 1–5) has a non-negative `litterSize` — at least 1 for
`success` and 0 otherwise — but it need not be an integer. -/
theorem submitMatchOutcome_litter_nonneg
    (env : SubmitEnv) (matchId outcome verifiedDogId userId : String)
    (litterSize : Option JSNum) (notes : Option String)
    (dog : Dog) (m : MatchRow) (pay : OutcomePayload)
    (hmid : matchId.isEmpty = false) (hvid : verifiedDogId.isEmpty = false)
    (ho : outcome = "success" ∨ outcome = "failed" ∨ outcome = "no_show")
    (hu : env.currentUser = some userId)
    (hd : env.getDog verifiedDogId = some dog)
    (hown : dog.user_id = userId)
    (hmm : env.getMatch matchId = some m)
    (hpart : m.requester_dog_id = verifiedDogId ∨
      m.requested_dog_id = verifiedDogId)
    (hok : submitMatchOutcome env matchId outcome verifiedDogId litterSize
      notes = .ok pay) :
    0 ≤ pay.litter_size := by
  have key := submitMatchOutcome_post_checks env matchId outcome verifiedDogId
    userId litterSize notes dog m hmid hvid ho hu hd hown hmm hpart
  rw [key] at hok
  rcases ho with h | h | h <;> subst h
  · by_cases hg : jsToLower (orEmpty dog.gender) = "male" <;>
      by_cases hfin : (jsToNumber litterSize).isFinite <;>
      by_cases hlt : (jsToNumber litterSize).ltOne <;>
      by_cases hn : (jsTrim (orEmpty notes)).isEmpty <;>
      by_cases hout : env.hasOutcome matchId <;>
      simp [hg, hfin, hlt, hn, hout] at hok <;>
      subst hok <;>
      exact le_trans zero_le_one
        (JSNum.one_le_val_of_not_ltOne _ hfin (by simpa using hlt))
  · by_cases hg : jsToLower (orEmpty dog.gender) = "male" <;>
      by_cases hout : env.hasOutcome matchId <;>
      simp [hg, hout] at hok <;>
      subst hok <;>
      exact le_refl 0
  · by_cases hn : (jsTrim (orEmpty notes)).isEmpty <;>
      by_cases hout : env.hasOutcome matchId <;>
      simp [hn, hout] at hok <;>
      subst hok <;>
      exact le_refl 0

/-- Witness for the amended C7: a concrete accepted submission whose stored
litter size is non-negative. -/
theorem submitMatchOutcome_litter_nonneg_witness :
    ∃ pay, submitMatchOutcome envFemale "m1" "success" "d2"
        (some (.num 4)) (some "x") = .ok pay ∧ 0 ≤ pay.litter_size :=
  ⟨_, rfl, submitMatchOutcome_litter_nonneg envFemale "m1" "success" "d2"
    "u2" (some (.num 4)) (some "x") dogFemale rowM1 _ rfl rfl (Or.inl rfl)
    rfl rfl rfl rfl (Or.inr rfl) rfl⟩

end DaBreeder

namespace DaBreeder

/-! ### Claim theorems for the match-request lifecycle -/

/-- The fixture match row in a terminal `declined` status. -/
def rowDeclined : MatchRow := { rowM1 with status := "declined" }

/-- C4 counterexample: `acceptMatchRequest` checks no precondition on the
current status — it succeeds on a match whose status is `declined`, which is
not `pending`. -/
theorem acceptMatchRequest_accepts_declined_cex :
    rowDeclined.status = "declined" ∧ rowDeclined.status ≠ "pending" ∧
    acceptMatchRequest [rowDeclined] "m1" 9 =
      .ok (applyAcceptPatch rowDeclined 9) := by
  refine ⟨rfl, by decide, rfl⟩

/-- C4 (amended): `accept(matchId)` does not require the current status to
be `pending`. For any stored row with the given id, whatever its current
status, the call succeeds, sets the status to `awaiting_confirmation`, and
stamps `acceptedAt`, `awaitingConfirmationAt` and `lastStatusChangedAt` all
to the same timestamp. -/
theorem acceptMatchRequest_spec (db : List MatchRow) (matchId : String)
    (now : Nat) (r : MatchRow)
    (hmid : matchId.isEmpty = false)
    (hfind : db.find? (fun x => x.id == matchId) = some r) :
    acceptMatchRequest db matchId now = .ok (applyAcceptPatch r now)
    ∧ (applyAcceptPatch r now).status = "awaiting_confirmation"
    ∧ (applyAcceptPatch r now).accepted_at = some now
    ∧ (applyAcceptPatch r now).awaiting_confirmation_at = some now
    ∧ (applyAcceptPatch r now).last_status_changed_at = some now := by
  refine ⟨?_, rfl, rfl, rfl, rfl⟩
  simp [acceptMatchRequest, hmid, hfind]

/-- Witness for the amended C4 at a concrete row and timestamp. -/
theorem acceptMatchRequest_spec_witness :
    acceptMatchRequest [rowM1] "m1" 5 = .ok (applyAcceptPatch rowM1 5)
    ∧ (applyAcceptPatch rowM1 5).status = "awaiting_confirmation"
    ∧ (applyAcceptPatch rowM1 5).accepted_at = some 5
    ∧ (applyAcceptPatch rowM1 5).awaiting_confirmation_at = some 5
    ∧ (applyAcceptPatch rowM1 5).last_status_changed_at = some 5 :=
  acceptMatchRequest_spec [rowM1] "m1" 5 rowM1 rfl rfl

/-- A fetched match row, awaiting confirmation, whose requester-side dog has
the unrecognized gender `unknown`. -/
def fetchedUnknown : FetchedMatch :=
  { row := rowM1,
    requester_dog := some { id := "d1", gender := some "unknown" },
    requested_dog := some { id := "d2", gender := some "Female" },
    dog_match_outcomes := [] }

/-- C6 counterexample: for the requester viewing a match whose status is
`awaiting_confirmation` but whose dog's gender is `unknown`, the view
model's `awaitingMyOutcome` flag is false — so the flag is not true exactly
when the status is `awaiting_confirmation`. -/
theorem mapMatchRecord_awaitingMyOutcome_cex :
    (mapMatchRecord (some fetchedUnknown) "u1").map
        (fun v => (v.row.status, v.awaitingMyOutcome)) =
      some ("awaiting_confirmation", false) := by
  decide

/-- C6 (amended): the view model's `awaitingMyOutcome` flag is true exactly
when the row's status is `awaiting_confirmation` AND the viewer's dog's
lowercased gender is `female` or `male`; for any other, missing, or
unrecognized gender the flag is false even in `awaiting_confirmation`. -/
theorem mapMatchRecord_awaitingMyOutcome (f : FetchedMatch) (userId : String)
    (vm : MatchViewModel) (h : mapMatchRecord (some f) userId = some vm) :
    vm.awaitingMyOutcome =
      (f.row.status == "awaiting_confirmation" &&
        (let myDog :=
          if !userId.isEmpty && f.row.requester_user_id == userId
          then f.requester_dog else f.requested_dog
         let g := jsToLower (orEmpty (myDog.bind FetchedDog.gender))
         g == "female" || g == "male")) := by
  simp only [mapMatchRecord] at h
  injection h with h
  subst h
  rfl

/-- Witness for the amended C6 at the concrete unknown-gender row. -/
theorem mapMatchRecord_awaitingMyOutcome_witness :
    ∃ vm, mapMatchRecord (some fetchedUnknown) "u1" = some vm ∧
      vm.awaitingMyOutcome = false :=
  ⟨_, rfl, by
    rw [mapMatchRecord_awaitingMyOutcome fetchedUnknown "u1" _ rfl]
    decide⟩

/-- C8: `updateMatchStatus` fails with `UnsupportedStatus` whenever the new
status is not a recognized value, and otherwise stamps exactly the
timestamp column paired with that status: `declined` stamps `declined_at`,
`cancelled` stamps `cancelled_at`, `awaiting_confirmation` stamps
`awaiting_confirmation_at`, and both completed variants stamp
`completed_at` (all other timestamp columns stay unset). -/
theorem updateMatchStatus_stamps (matchId : String) (now : Nat)
    (hmid : matchId.isEmpty = false) :
    (∀ status, status ∉ STATUS_SET →
      updateMatchStatus matchId status now = .error .unsupportedStatus)
    ∧ updateMatchStatus matchId "declined" now =
        .ok { status := "declined", declined_at := some now }
    ∧ updateMatchStatus matchId "cancelled" now =
        .ok { status := "cancelled", cancelled_at := some now }
    ∧ updateMatchStatus matchId "awaiting_confirmation" now =
        .ok { status := "awaiting_confirmation",
              awaiting_confirmation_at := some now }
    ∧ updateMatchStatus matchId "completed_success" now =
        .ok { status := "completed_success", completed_at := some now }
    ∧ updateMatchStatus matchId "completed_failed" now =
        .ok { status := "completed_failed", completed_at := some now } := by
  refine ⟨fun status hns => ?_, ?_, ?_, ?_, ?_, ?_⟩ <;>
    simp [updateMatchStatus, stampTimestampField, hmid, STATUS_SET]
  intro hc
  exact absurd hc (by simpa [STATUS_SET] using hns)

/-- Witness for C8 at a concrete id, status values and timestamp. -/
theorem updateMatchStatus_stamps_witness :
    updateMatchStatus "m1" "bogus" 7 = .error .unsupportedStatus
    ∧ updateMatchStatus "m1" "declined" 7 =
        .ok { status := "declined", declined_at := some 7 } :=
  ⟨(updateMatchStatus_stamps "m1" 7 rfl).1 "bogus" (by decide),
   (updateMatchStatus_stamps "m1" 7 rfl).2.1⟩

/-- C3: `createMatchRequest` against a context that already has an active
request (status `pending`, `accepted` or `awaiting_confirmation`) fails
with `ConflictError`, and the error carries (the selected columns of) an
existing active request of that same context. -/
theorem createMatchRequest_conflict
    (db : List MatchRow) (dogOwner : String → Option String)
    (contactId requesterDogId requestedDogId requesterUserId : String)
    (requestedUserId : Option String) (notes : Option String)
    (newId : String) (now : Nat)
    (hc : contactId.isEmpty = false)
    (h1 : requesterDogId.isEmpty = false) (h2 : requestedDogId.isEmpty = false)
    (h3 : requesterUserId.isEmpty = false)
    (h4 : requesterDogId ≠ requestedDogId)
    (hactive : ∃ r ∈ db, r.contact_id = contactId ∧
      r.status ∈ ACTIVE_STATUS_LIST) :
    ∃ a, createMatchRequest db dogOwner contactId requesterDogId
        requestedDogId requesterUserId requestedUserId notes newId now =
        .error (.conflictError a)
      ∧ ∃ r ∈ db, r.contact_id = contactId ∧ r.status ∈ ACTIVE_STATUS_LIST ∧
          a = r.toActiveInfo := by
  obtain ⟨r0, hr0db, hr0c, hr0s⟩ := hactive
  have hmem : r0 ∈ db.filter fun r =>
      r.contact_id == contactId && ACTIVE_STATUS_LIST.contains r.status :=
    List.mem_filter.mpr ⟨hr0db, by simp [hr0c, hr0s]⟩
  obtain ⟨b, hb⟩ := Option.isSome_iff_exists.mp
    (pickLatest_isSome (List.ne_nil_of_mem hmem))
  have hbflt := pickLatest_mem hb
  have hbdb : b ∈ db := (List.mem_filter.mp hbflt).1
  have hbprops : b.contact_id = contactId ∧ b.status ∈ ACTIVE_STATUS_LIST := by
    simpa using (List.mem_filter.mp hbflt).2
  obtain ⟨hbc, hbs⟩ := hbprops
  have hget : getActiveRequestForContact db contactId =
      some b.toActiveInfo := by
    simp only [getActiveRequestForContact, hc, Bool.false_eq_true, if_false,
      hb, Option.map_some']
  refine ⟨b.toActiveInfo, ?_, b, hbdb, hbc, hbs, rfl⟩
  simp [createMatchRequest, hc, h1, h2, h3, h4, hget,
    MatchRow.toActiveInfo, hbs]

/-- Witness for C3: creating a second request in a context whose only row is
an active (`awaiting_confirmation`) request fails with `ConflictError`
carrying that request. -/
theorem createMatchRequest_conflict_witness :
    ∃ a, createMatchRequest [rowM1] (fun _ => some "u2") "c1" "d1" "d2" "u1"
        none none "m9" 42 = .error (.conflictError a)
      ∧ ∃ r ∈ [rowM1], r.contact_id = "c1" ∧ r.status ∈ ACTIVE_STATUS_LIST ∧
          a = r.toActiveInfo :=
  createMatchRequest_conflict [rowM1] (fun _ => some "u2") "c1" "d1" "d2"
    "u1" none none "m9" 42 rfl rfl rfl rfl (by decide)
    ⟨rowM1, by decide, rfl, by decide⟩

/-- C9: any `createMatchRequest` call that passes all validation persists a
new request whose status is `pending` and whose `requestedAt` timestamp is
the current time (the storage insert defaults are modelled from the spec by
`insertMatchRow`). -/
theorem createMatchRequest_pending
    (db : List MatchRow) (dogOwner : String → Option String)
    (contactId requesterDogId requestedDogId requesterUserId : String)
    (requestedUserId : Option String) (notes : Option String)
    (newId : String) (now : Nat) (row : MatchRow)
    (h : createMatchRequest db dogOwner contactId requesterDogId
      requestedDogId requesterUserId requestedUserId notes newId now =
      .ok row) :
    row.status = "pending" ∧ row.requested_at = now := by
  simp only [createMatchRequest] at h
  repeat' split at h
  all_goals try exact Except.noConfusion h
  all_goals simp only [createMatchRequestResolve] at h
  all_goals repeat' split at h
  all_goals try exact Except.noConfusion h
  all_goals injection h with h
  all_goals subst h
  all_goals exact ⟨rfl, rfl⟩

/-- Witness for C9: a concrete validated call creates a `pending` request
stamped with the current time. -/
theorem createMatchRequest_pending_witness :
    ∃ row, createMatchRequest [] (fun _ => some "u2") "c1" "d1" "d2" "u1"
        none none "m9" 42 = .ok row ∧ row.status = "pending" ∧
        row.requested_at = 42 :=
  ⟨_, rfl, createMatchRequest_pending [] (fun _ => some "u2") "c1" "d1" "d2"
    "u1" none none "m9" 42 _ rfl⟩

end DaBreeder
